import Mathlib

/-!
Verification of the hybrid RAG query-router specification of the
ST-SARAVANAPRIYAN/chatbot repository.

The repository snapshot contains the project documentation, the startup shell
script and the Colab notebook, but not the Python sources of the router,
classifier and merge logic (src/main.py and the services package).  Those
components are therefore modelled from the specification's words, as noted on
each definition.  The startup script is embedded directly from its source.
-/

namespace Chatbot

/-- Modelled from the spec: §3 — a Classification is derived from a Question
and is one of FACTUAL, OPEN_ENDED, UNCERTAIN.  The classifier sources
(src/main.py and the services package) are missing from the snapshot. -/
inductive Classification where
  | FACTUAL
  | OPEN_ENDED
  | UNCERTAIN
deriving DecidableEq, Repr

/-- Modelled from the spec: §3 — a RetrievalResult is a (source_id,
text_snippet, relevance_score) tuple returned by either backend.  Source ids
are modelled as naturals whose order gives the deterministic tie-break;
scores are rationals. -/
structure RetrievalResult where
  source_id : Nat
  text_snippet : String
  relevance_score : ℚ
deriving DecidableEq, Repr

/-- Modelled from the spec: §7 — the typed error taxonomy of the missing
router code. -/
inductive RouterError where
  | InvalidInput
  | BackendUnavailable
  | BackendTimeout
  | SynthesisUnavailable
  | InternalInconsistency
deriving DecidableEq, Repr

/-- A question text is blank when it is empty or consists only of whitespace
characters (the empty string vacuously satisfies the all-whitespace test). -/
def isBlank (text : String) : Bool :=
  text.data.all (fun c => c.isWhitespace)

/-- Modelled from the spec: §4.1 — the reference classification heuristic,
keyed on factual-question markers such as "what is" / "how many" and
open-ended markers, with UNCERTAIN as the explicit fallback.  The strategy is
explicitly replaceable; this is one concrete instance. -/
def classifyHeuristic (text : String) : Classification :=
  if text.data.take 7 = "what is".data ∨ text.data.take 8 = "how many".data then
    .FACTUAL
  else if text.data.take 7 = "tell me".data ∨ text.data.take 8 = "describe".data then
    .OPEN_ENDED
  else
    .UNCERTAIN

/-- Modelled from the spec: §4.1 — the Classifier contract: empty or
whitespace-only text fails with InvalidInput, any other text yields exactly
one Classification. -/
def classify (text : String) : Except RouterError Classification :=
  if isBlank text then .error .InvalidInput
  else .ok (classifyHeuristic text)

/-- Modelled from the spec: §3 — ordering of RetrievalResult: descending
relevance_score, ties broken by source_id for determinism. -/
def resultOrder (a b : RetrievalResult) : Prop :=
  b.relevance_score < a.relevance_score ∨
    (a.relevance_score = b.relevance_score ∧ a.source_id ≤ b.source_id)

instance : DecidableRel resultOrder := fun a b => by
  unfold resultOrder
  exact inferInstance

instance : IsTotal RetrievalResult resultOrder := by
  constructor
  intro a b
  rcases lt_trichotomy a.relevance_score b.relevance_score with h | h | h
  · exact Or.inr (Or.inl h)
  · rcases Nat.le_total a.source_id b.source_id with h2 | h2
    · exact Or.inl (Or.inr ⟨h, h2⟩)
    · exact Or.inr (Or.inr ⟨h.symm, h2⟩)
  · exact Or.inl (Or.inl h)

instance : IsTrans RetrievalResult resultOrder := by
  constructor
  intro a b c hab hbc
  rcases hab with h1 | ⟨e1, i1⟩ <;> rcases hbc with h2 | ⟨e2, i2⟩
  · exact Or.inl (h2.trans h1)
  · exact Or.inl (e2 ▸ h1)
  · exact Or.inl (lt_of_lt_of_le h2 (le_of_eq e1.symm))
  · exact Or.inr ⟨e1.trans e2, le_trans i1 i2⟩

/-- Sort retrieval results by descending score with source_id tie-break
(the "interleave by relevance_score, stable merge" of spec §4.2). -/
def sortResults (l : List RetrievalResult) : List RetrievalResult :=
  List.insertionSort resultOrder l

/-- Deduplication worker: keeps the first entry of each source_id group,
skipping ids already seen. -/
def dedupeAux : List RetrievalResult → List Nat → List RetrievalResult
  | [], _ => []
  | r :: rs, seen =>
      if r.source_id ∈ seen then dedupeAux rs seen
      else r :: dedupeAux rs (r.source_id :: seen)

/-- Modelled from the spec: §4.2 — deduplicate by source_id.  Applied to the
descending-sorted list, keeping the first entry of each group keeps the
higher score. -/
def dedupeBySource (l : List RetrievalResult) : List RetrievalResult :=
  dedupeAux l []

/-- Total character size of a context (spec §3: context-size budget as
character count). -/
def contextSize (l : List RetrievalResult) : Nat :=
  (l.map (fun r => r.text_snippet.length)).sum

/-- Modelled from the spec: §4.2 — cap the (already sorted) context at the
budget, dropping lowest-score entries first and never truncating
mid-snippet. -/
def takeWithinBudget (budget : Nat) : List RetrievalResult → List RetrievalResult
  | [] => []
  | r :: rs =>
      if r.text_snippet.length ≤ budget then
        r :: takeWithinBudget (budget - r.text_snippet.length) rs
      else []

/-- Modelled from the spec: §4.2 — dual-backend merge: interleave by
relevance_score (stable sort), deduplicate by source_id keeping the higher
score, cap at the budget dropping lowest-score entries first. -/
def mergeDual (budget : Nat) (a b : List RetrievalResult) : List RetrievalResult :=
  takeWithinBudget budget (dedupeBySource (sortResults (a ++ b)))

/-- Modelled from the spec: §4.2 — single-backend dispatch: MergedContext is
that backend's results, already ordered. -/
def mergeSingle (rs : List RetrievalResult) : List RetrievalResult := rs

/-- Modelled from the spec: §5/§7 — the observable outcome of one backend
call: a result list, a timeout, or a backend error. -/
inductive BackendOutcome where
  | ok (results : List RetrievalResult)
  | timeout
  | unavailable
deriving DecidableEq, Repr

/-- Modelled from the spec: §4.2 — the router's state machine states. -/
inductive RouterState where
  | RECEIVED
  | CLASSIFIED
  | DISPATCHED
  | MERGED
  | SYNTHESIZED
  | DONE
  | ERRORED
deriving DecidableEq, Repr

/-- Modelled from the spec: §3 — an Answer: final text, the source_ids
offered, and which backends contributed. -/
structure Answer where
  text : String
  sources : List Nat
  fromFact : Bool
  fromSem : Bool
deriving DecidableEq, Repr

/-- Modelled from the spec: §9 — the immutable configuration object passed to
the router: context budget and the flag enabling the Fact Retriever. -/
structure Config where
  budget : Nat
  graphEnabled : Bool
deriving DecidableEq, Repr

/-- Modelled from the spec: §4.2/§6 — whether the Fact Retriever is queried
for a given classification (disabled flag routes everything to the Semantic
Retriever only). -/
def queriesFact (graphEnabled : Bool) : Classification → Bool
  | .FACTUAL => graphEnabled
  | .OPEN_ENDED => false
  | .UNCERTAIN => graphEnabled

/-- Modelled from the spec: §4.2/§6 — whether the Semantic Retriever is
queried for a given classification. -/
def queriesSem (graphEnabled : Bool) : Classification → Bool
  | .FACTUAL => !graphEnabled
  | .OPEN_ENDED => true
  | .UNCERTAIN => true

/-- Modelled from the spec: §4.2 — merge step for a single-backend dispatch;
a failure of the only backend is a failure of the request. -/
def singleDispatch : BackendOutcome → Except RouterError (List RetrievalResult)
  | .ok rs => .ok (mergeSingle rs)
  | .timeout => .error .BackendTimeout
  | .unavailable => .error .BackendUnavailable

/-- Modelled from the spec: §4.2/§5 — merge step for a dual-backend dispatch:
a single failed backend contributes zero results; both timing out fails with
BackendTimeout; both failing otherwise fails with BackendUnavailable. -/
def dualDispatch (budget : Nat) :
    BackendOutcome → BackendOutcome → Except RouterError (List RetrievalResult)
  | .ok a, .ok b => .ok (mergeDual budget a b)
  | .ok a, .timeout => .ok (mergeDual budget a [])
  | .ok a, .unavailable => .ok (mergeDual budget a [])
  | .timeout, .ok b => .ok (mergeDual budget [] b)
  | .unavailable, .ok b => .ok (mergeDual budget [] b)
  | .timeout, .timeout => .error .BackendTimeout
  | .timeout, .unavailable => .error .BackendUnavailable
  | .unavailable, .timeout => .error .BackendUnavailable
  | .unavailable, .unavailable => .error .BackendUnavailable

/-- True when the outcome actually contributes results (a non-empty ok list);
timeouts and errors are treated as zero results per spec §5. -/
def contributesResults : BackendOutcome → Bool
  | .ok [] => false
  | .ok (_ :: _) => true
  | .timeout => false
  | .unavailable => false

/-- Modelled from the spec: §4.2 — the dispatch-and-merge step selected by
the query plan. -/
def dispatch (budget : Nat) (graphEnabled : Bool) (c : Classification)
    (fo so : BackendOutcome) : Except RouterError (List RetrievalResult) :=
  if queriesFact graphEnabled c && queriesSem graphEnabled c then
    dualDispatch budget fo so
  else if queriesFact graphEnabled c then
    singleDispatch fo
  else
    singleDispatch so

/-- One complete run of the router on a Question: the states visited, which
backends were queried, the MergedContext, and the final result. -/
structure RouterRun where
  trace : List RouterState
  queriedFact : Bool
  queriedSem : Bool
  merged : List RetrievalResult
  result : Except RouterError Answer

/-- Modelled from the spec: §4.2 — the router pipeline.  `synthText` is the
external Response Synthesizer's text (opaque to the router); `fo`/`so` are
the Fact and Semantic backend outcomes the dispatch would observe; `synthOk`
is whether synthesis succeeds.  When both backends of a dual dispatch
contribute zero results the router goes directly to SYNTHESIZED with an
empty MergedContext. -/
def routeQuestion (cfg : Config) (synthText : String → List RetrievalResult → String)
    (q : String) (fo so : BackendOutcome) (synthOk : Bool) : RouterRun :=
  match classify q with
  | .error e => ⟨[.RECEIVED, .ERRORED], false, false, [], .error e⟩
  | .ok c =>
      let qf := queriesFact cfg.graphEnabled c
      let qs := queriesSem cfg.graphEnabled c
      match dispatch cfg.budget cfg.graphEnabled c fo so with
      | .error e => ⟨[.RECEIVED, .CLASSIFIED, .DISPATCHED, .ERRORED], qf, qs, [], .error e⟩
      | .ok m =>
          let skipMerge : Bool :=
            qf && qs && !contributesResults fo && !contributesResults so
          let mid : List RouterState := if skipMerge then [] else [.MERGED]
          if synthOk then
            ⟨[.RECEIVED, .CLASSIFIED, .DISPATCHED] ++ mid ++ [.SYNTHESIZED, .DONE],
             qf, qs, m,
             .ok ⟨synthText q m, m.map (fun r => r.source_id), qf, qs⟩⟩
          else
            ⟨[.RECEIVED, .CLASSIFIED, .DISPATCHED] ++ mid ++ [.ERRORED],
             qf, qs, m, .error .SynthesisUnavailable⟩

/-- The observable actions of the startup shell script. -/
inductive ScriptEvent where
  | depCheck
  | pipInstall
  | envCheck
  | createEnv
  | spacyDownload
  | dataCheck
  | buildIndex
  | buildGraph
  | showMenu
  | launchWeb
  | launchCLI
  | launchDashboard
  | exitWith (code : Nat)
deriving DecidableEq, Repr

/-- The environment the startup script runs in. -/
structure ScriptEnv where
  pipAvailable : Bool
  envFileExists : Bool
  dataNonEmpty : Bool
  choice : Nat

/-- The launch-menu case dispatch of the startup script. -/
def launchTail (choice : Nat) : List ScriptEvent :=
  match choice with
  | 1 => [.launchWeb]
  | 2 => [.launchCLI]
  | 3 => [.launchDashboard]
  | 4 => [.exitWith 0]
  | _ => [.exitWith 1]

/-- Shallow embedding of the startup shell script (src/unnamed/part_000): the
sequence of actions it performs as a function of its environment. -/
def runScript (env : ScriptEnv) : List ScriptEvent :=
  if !env.pipAvailable then
    [.depCheck, .exitWith 1]
  else if !env.envFileExists then
    [.depCheck, .pipInstall, .envCheck, .createEnv, .exitWith 1]
  else
    [.depCheck, .pipInstall, .envCheck, .spacyDownload, .dataCheck,
     .buildIndex, .buildGraph, .showMenu] ++ launchTail env.choice

theorem contextSize_nil : contextSize [] = 0 := rfl

theorem contextSize_cons (r : RetrievalResult) (rs : List RetrievalResult) :
    contextSize (r :: rs) = r.text_snippet.length + contextSize rs := by
  simp [contextSize]

theorem takeWithinBudget_append :
    ∀ (n : Nat) (l : List RetrievalResult), ∃ t, l = takeWithinBudget n l ++ t
  | _, [] => ⟨[], rfl⟩
  | n, r :: rs => by
      by_cases h : r.text_snippet.length ≤ n
      · obtain ⟨t, ht⟩ := takeWithinBudget_append (n - r.text_snippet.length) rs
        refine ⟨t, ?_⟩
        simp only [takeWithinBudget, if_pos h, List.cons_append]
        exact congrArg (r :: ·) ht
      · refine ⟨r :: rs, ?_⟩
        simp only [takeWithinBudget, if_neg h, List.nil_append]

theorem contextSize_takeWithinBudget :
    ∀ (n : Nat) (l : List RetrievalResult), contextSize (takeWithinBudget n l) ≤ n
  | n, [] => by simp [takeWithinBudget, contextSize]
  | n, r :: rs => by
      by_cases h : r.text_snippet.length ≤ n
      · have ih := contextSize_takeWithinBudget (n - r.text_snippet.length) rs
        simp only [takeWithinBudget, if_pos h, contextSize_cons]
        omega
      · simp [takeWithinBudget, if_neg h, contextSize]

theorem takeWithinBudget_all :
    ∀ (n : Nat) (l : List RetrievalResult), contextSize l ≤ n → takeWithinBudget n l = l
  | _, [], _ => rfl
  | n, r :: rs, h => by
      rw [contextSize_cons] at h
      have hr : r.text_snippet.length ≤ n := by omega
      have ih := takeWithinBudget_all (n - r.text_snippet.length) rs (by omega)
      simp only [takeWithinBudget, if_pos hr, ih]

theorem takeWithinBudget_sublist (n : Nat) (l : List RetrievalResult) :
    List.Sublist (takeWithinBudget n l) l := by
  obtain ⟨t, ht⟩ := takeWithinBudget_append n l
  conv_rhs => rw [ht]
  exact List.sublist_append_left _ _

theorem dedupeAux_sublist : ∀ (l : List RetrievalResult) (seen : List Nat),
    List.Sublist (dedupeAux l seen) l
  | [], _ => List.Sublist.refl []
  | r :: rs, seen => by
      simp only [dedupeAux]
      by_cases h : r.source_id ∈ seen
      · rw [if_pos h]
        exact (dedupeAux_sublist rs seen).cons r
      · rw [if_neg h]
        exact (dedupeAux_sublist rs _).cons₂ r

theorem dedupeAux_not_seen : ∀ (l : List RetrievalResult) (seen : List Nat),
    ∀ e ∈ dedupeAux l seen, e.source_id ∉ seen
  | [], _, e, he => by simp [dedupeAux] at he
  | r :: rs, seen, e, he => by
      simp only [dedupeAux] at he
      by_cases h : r.source_id ∈ seen
      · rw [if_pos h] at he
        exact dedupeAux_not_seen rs seen e he
      · rw [if_neg h] at he
        rcases List.mem_cons.mp he with rfl | he2
        · exact h
        · have hns := dedupeAux_not_seen rs _ e he2
          intro hc
          exact hns (List.mem_cons_of_mem _ hc)

theorem dedupeAux_nodup : ∀ (l : List RetrievalResult) (seen : List Nat),
    ((dedupeAux l seen).map (fun r => r.source_id)).Nodup
  | [], _ => by simp [dedupeAux]
  | r :: rs, seen => by
      simp only [dedupeAux]
      by_cases h : r.source_id ∈ seen
      · rw [if_pos h]
        exact dedupeAux_nodup rs seen
      · rw [if_neg h]
        simp only [List.map_cons, List.nodup_cons]
        refine ⟨?_, dedupeAux_nodup rs _⟩
        intro hc
        obtain ⟨e, he, heq⟩ := List.mem_map.mp hc
        exact dedupeAux_not_seen rs _ e he (by rw [heq]; exact List.mem_cons_self _ _)

theorem dedupeAux_exists : ∀ (l : List RetrievalResult) (seen : List Nat)
    (s : RetrievalResult), s ∈ l → s.source_id ∉ seen →
    ∃ e ∈ dedupeAux l seen, e.source_id = s.source_id
  | [], _, s, hs, _ => absurd hs (List.not_mem_nil s)
  | r :: rs, seen, s, hs, hseen => by
      simp only [dedupeAux]
      by_cases h : r.source_id ∈ seen
      · rw [if_pos h]
        rcases List.mem_cons.mp hs with rfl | hs2
        · exact absurd h hseen
        · exact dedupeAux_exists rs seen s hs2 hseen
      · rw [if_neg h]
        by_cases hid : s.source_id = r.source_id
        · exact ⟨r, List.mem_cons_self _ _, hid.symm⟩
        · rcases List.mem_cons.mp hs with rfl | hs2
          · exact absurd rfl hid
          · obtain ⟨e, he, heq⟩ := dedupeAux_exists rs (r.source_id :: seen) s hs2 (by
              intro hc
              rcases List.mem_cons.mp hc with hc1 | hc2
              · exact hid hc1
              · exact hseen hc2)
            exact ⟨e, List.mem_cons_of_mem _ he, heq⟩

theorem dedupeAux_max :
    ∀ (l : List RetrievalResult) (seen : List Nat), l.Sorted resultOrder →
      ∀ e ∈ dedupeAux l seen, ∀ g ∈ l, g.source_id = e.source_id →
        g.relevance_score ≤ e.relevance_score
  | [], _, _, e, he => by simp [dedupeAux] at he
  | r :: rs, seen, hsort, e, he => by
      have hr : ∀ g ∈ rs, resultOrder r g := List.rel_of_sorted_cons hsort
      have htail : rs.Sorted resultOrder := hsort.of_cons
      simp only [dedupeAux] at he
      by_cases h : r.source_id ∈ seen
      · rw [if_pos h] at he
        have hene : e.source_id ≠ r.source_id := by
          intro hc
          exact dedupeAux_not_seen rs seen e he (hc ▸ h)
        intro g hg hgid
        rcases List.mem_cons.mp hg with rfl | hg2
        · exact absurd hgid (Ne.symm hene)
        · exact dedupeAux_max rs seen htail e he g hg2 hgid
      · rw [if_neg h] at he
        rcases List.mem_cons.mp he with rfl | he2
        · intro g hg hgid
          rcases List.mem_cons.mp hg with rfl | hg2
          · exact le_refl _
          · rcases hr g hg2 with hlt | ⟨heq, _⟩
            · exact le_of_lt hlt
            · exact le_of_eq heq.symm
        · have hene : e.source_id ≠ r.source_id := by
            intro hc
            exact dedupeAux_not_seen rs _ e he2 (by rw [hc]; exact List.mem_cons_self _ _)
          intro g hg hgid
          rcases List.mem_cons.mp hg with rfl | hg2
          · exact absurd hgid (Ne.symm hene)
          · exact dedupeAux_max rs _ htail e he2 g hg2 hgid

theorem dedupeAux_eq_self :
    ∀ (l : List RetrievalResult) (seen : List Nat),
      (l.map (fun r => r.source_id)).Nodup →
      (∀ s ∈ l, s.source_id ∉ seen) → dedupeAux l seen = l
  | [], _, _, _ => rfl
  | r :: rs, seen, hnd, hs => by
      have h : r.source_id ∉ seen := hs r (List.mem_cons_self _ _)
      simp only [List.map_cons, List.nodup_cons] at hnd
      simp only [dedupeAux, if_neg h]
      congr 1
      refine dedupeAux_eq_self rs _ hnd.2 ?_
      intro s hsmem hc
      rcases List.mem_cons.mp hc with hc1 | hc2
      · exact hnd.1 (hc1 ▸ List.mem_map_of_mem _ hsmem)
      · exact hs s (List.mem_cons_of_mem _ hsmem) hc2

theorem dedupeBySource_sublist (l : List RetrievalResult) :
    List.Sublist (dedupeBySource l) l :=
  dedupeAux_sublist l []

theorem dedupeBySource_nodup (l : List RetrievalResult) :
    ((dedupeBySource l).map (fun r => r.source_id)).Nodup :=
  dedupeAux_nodup l []

theorem dedupeBySource_exists (l : List RetrievalResult) (s : RetrievalResult)
    (hs : s ∈ l) : ∃ e ∈ dedupeBySource l, e.source_id = s.source_id :=
  dedupeAux_exists l [] s hs (List.not_mem_nil s.source_id)

theorem dedupeBySource_max (l : List RetrievalResult) (hsort : l.Sorted resultOrder) :
    ∀ e ∈ dedupeBySource l, ∀ g ∈ l, g.source_id = e.source_id →
      g.relevance_score ≤ e.relevance_score :=
  dedupeAux_max l [] hsort

theorem dedupeBySource_eq_self (l : List RetrievalResult)
    (hnd : (l.map (fun r => r.source_id)).Nodup) : dedupeBySource l = l :=
  dedupeAux_eq_self l [] hnd (fun s _ => List.not_mem_nil s.source_id)

theorem sortResults_perm (l : List RetrievalResult) :
    List.Perm (sortResults l) l :=
  List.perm_insertionSort resultOrder l

theorem sortResults_sorted (l : List RetrievalResult) :
    (sortResults l).Sorted resultOrder :=
  List.sorted_insertionSort resultOrder l

theorem mergeDual_subset (budget : Nat) (a b : List RetrievalResult) :
    ∀ x ∈ mergeDual budget a b, x ∈ a ++ b := by
  intro x hx
  unfold mergeDual at hx
  obtain ⟨t, ht⟩ := takeWithinBudget_append budget (dedupeBySource (sortResults (a ++ b)))
  have h1 : x ∈ dedupeBySource (sortResults (a ++ b)) := by
    rw [ht]
    exact List.mem_append_left _ hx
  have h2 : x ∈ sortResults (a ++ b) := (dedupeBySource_sublist _).subset h1
  exact (sortResults_perm (a ++ b)).subset h2

theorem routeQuestion_queried (cfg : Config)
    (synthText : String → List RetrievalResult → String) (q : String)
    (c : Classification) (fo so : BackendOutcome) (synthOk : Bool)
    (hc : classify q = .ok c) :
    (routeQuestion cfg synthText q fo so synthOk).queriedFact =
      queriesFact cfg.graphEnabled c ∧
    (routeQuestion cfg synthText q fo so synthOk).queriedSem =
      queriesSem cfg.graphEnabled c := by
  simp only [routeQuestion, hc]
  cases hd : dispatch cfg.budget cfg.graphEnabled c fo so <;> cases synthOk <;> simp

theorem routeQuestion_merged (cfg : Config)
    (synthText : String → List RetrievalResult → String) (q : String)
    (c : Classification) (fo so : BackendOutcome) (synthOk : Bool)
    (m : List RetrievalResult) (hc : classify q = .ok c)
    (hd : dispatch cfg.budget cfg.graphEnabled c fo so = .ok m) :
    (routeQuestion cfg synthText q fo so synthOk).merged = m := by
  simp only [routeQuestion, hc, hd]
  cases synthOk <;> simp

theorem routeQuestion_result_ok (cfg : Config)
    (synthText : String → List RetrievalResult → String) (q : String)
    (c : Classification) (fo so : BackendOutcome)
    (m : List RetrievalResult) (hc : classify q = .ok c)
    (hd : dispatch cfg.budget cfg.graphEnabled c fo so = .ok m) :
    (routeQuestion cfg synthText q fo so true).result =
      .ok ⟨synthText q m, m.map (fun r => r.source_id),
           queriesFact cfg.graphEnabled c, queriesSem cfg.graphEnabled c⟩ := by
  simp [routeQuestion, hc, hd]

theorem routeQuestion_result_err (cfg : Config)
    (synthText : String → List RetrievalResult → String) (q : String)
    (c : Classification) (fo so : BackendOutcome) (synthOk : Bool)
    (e : RouterError) (hc : classify q = .ok c)
    (hd : dispatch cfg.budget cfg.graphEnabled c fo so = .error e) :
    (routeQuestion cfg synthText q fo so synthOk).result = .error e ∧
    (routeQuestion cfg synthText q fo so synthOk).trace =
      [.RECEIVED, .CLASSIFIED, .DISPATCHED, .ERRORED] := by
  simp [routeQuestion, hc, hd]

/-- C1: With the Fact Retriever enabled, the router's dispatch is determined
solely by the Classification: FACTUAL queries the Fact Retriever only,
OPEN_ENDED the Semantic Retriever only, and UNCERTAIN queries both retrievers,
whose results are then merged. -/
theorem dispatch_determined_by_classification (cfg : Config)
    (synthText : String → List RetrievalResult → String) (q : String)
    (c : Classification) (fo so : BackendOutcome) (synthOk : Bool)
    (hg : cfg.graphEnabled = true) (hc : classify q = .ok c) :
    (c = .FACTUAL →
      (routeQuestion cfg synthText q fo so synthOk).queriedFact = true ∧
      (routeQuestion cfg synthText q fo so synthOk).queriedSem = false) ∧
    (c = .OPEN_ENDED →
      (routeQuestion cfg synthText q fo so synthOk).queriedFact = false ∧
      (routeQuestion cfg synthText q fo so synthOk).queriedSem = true) ∧
    (c = .UNCERTAIN →
      (routeQuestion cfg synthText q fo so synthOk).queriedFact = true ∧
      (routeQuestion cfg synthText q fo so synthOk).queriedSem = true ∧
      ∀ a b, fo = .ok a → so = .ok b →
        (routeQuestion cfg synthText q fo so synthOk).merged =
          mergeDual cfg.budget a b) := by
  obtain ⟨hf, hs⟩ := routeQuestion_queried cfg synthText q c fo so synthOk hc
  refine ⟨?_, ?_, ?_⟩
  · rintro rfl
    rw [hf, hs]
    simp [queriesFact, queriesSem, hg]
  · rintro rfl
    rw [hf, hs]
    simp [queriesFact, queriesSem]
  · rintro rfl
    refine ⟨by rw [hf]; simp [queriesFact, hg], by rw [hs]; simp [queriesSem], ?_⟩
    rintro a b rfl rfl
    refine routeQuestion_merged cfg synthText q .UNCERTAIN _ _ synthOk _ hc ?_
    simp [dispatch, queriesFact, queriesSem, hg, dualDispatch]

/-- Witness for C1: the concrete UNCERTAIN question "ok" with both backends
returning empty lists queries both retrievers and merges. -/
theorem dispatch_determined_by_classification_witness :
    (routeQuestion ⟨100, true⟩ (fun _ _ => "") "ok" (.ok []) (.ok []) true).queriedFact
      = true ∧
    (routeQuestion ⟨100, true⟩ (fun _ _ => "") "ok" (.ok []) (.ok []) true).queriedSem
      = true ∧
    (routeQuestion ⟨100, true⟩ (fun _ _ => "") "ok" (.ok []) (.ok []) true).merged
      = mergeDual 100 [] [] := by
  have h := (dispatch_determined_by_classification ⟨100, true⟩ (fun _ _ => "") "ok"
    .UNCERTAIN (.ok []) (.ok []) true rfl rfl).2.2 rfl
  exact ⟨h.1, h.2.1, h.2.2 [] [] rfl rfl⟩

/-- C4: For every non-empty Question text the Classifier returns exactly one
of the three Classification values, and for every empty or whitespace-only
text it fails with the typed error InvalidInput. -/
theorem classifier_total_or_invalid (text : String) :
    (isBlank text = true → classify text = .error .InvalidInput) ∧
    (isBlank text = false → ∃ c : Classification, classify text = .ok c ∧
      (c = .FACTUAL ∨ c = .OPEN_ENDED ∨ c = .UNCERTAIN)) := by
  constructor
  · intro h
    simp [classify, h]
  · intro h
    refine ⟨classifyHeuristic text, by simp [classify, h], ?_⟩
    cases classifyHeuristic text <;> simp

/-- Witness for C4: the empty string and a whitespace-only string fail with
InvalidInput; a concrete non-empty question classifies. -/
theorem classifier_total_or_invalid_witness :
    classify "" = .error .InvalidInput ∧
    classify "   " = .error .InvalidInput ∧
    ∃ c : Classification, classify "what is RAG" = .ok c ∧
      (c = .FACTUAL ∨ c = .OPEN_ENDED ∨ c = .UNCERTAIN) :=
  ⟨(classifier_total_or_invalid "").1 rfl,
   (classifier_total_or_invalid "   ").1 rfl,
   (classifier_total_or_invalid "what is RAG").2 rfl⟩

/-- C5: A dual-backend dispatch in which both backends return empty result
lists does not enter ERRORED: the router goes directly from DISPATCHED to
SYNTHESIZED with an empty MergedContext and completes at DONE. -/
theorem both_empty_direct_to_synthesized (cfg : Config)
    (synthText : String → List RetrievalResult → String) (q : String)
    (hg : cfg.graphEnabled = true) (hc : classify q = .ok .UNCERTAIN) :
    (routeQuestion cfg synthText q (.ok []) (.ok []) true).trace =
      [.RECEIVED, .CLASSIFIED, .DISPATCHED, .SYNTHESIZED, .DONE] ∧
    RouterState.ERRORED ∉ (routeQuestion cfg synthText q (.ok []) (.ok []) true).trace ∧
    (routeQuestion cfg synthText q (.ok []) (.ok []) true).merged = [] ∧
    ∃ ans, (routeQuestion cfg synthText q (.ok []) (.ok []) true).result = .ok ans := by
  have hd : dispatch cfg.budget true .UNCERTAIN (.ok []) (.ok []) = .ok [] := by
    simp [dispatch, queriesFact, queriesSem, dualDispatch, mergeDual, sortResults,
      dedupeBySource, dedupeAux, takeWithinBudget]
  refine ⟨?_, ?_, ?_, ?_⟩ <;>
    simp [routeQuestion, hc, hd, queriesFact, queriesSem, hg, contributesResults]

/-- Witness for C5 at the concrete UNCERTAIN question "ok". -/
theorem both_empty_direct_to_synthesized_witness :
    (routeQuestion ⟨100, true⟩ (fun _ _ => "") "ok" (.ok []) (.ok []) true).trace =
      [.RECEIVED, .CLASSIFIED, .DISPATCHED, .SYNTHESIZED, .DONE] ∧
    RouterState.ERRORED ∉
      (routeQuestion ⟨100, true⟩ (fun _ _ => "") "ok" (.ok []) (.ok []) true).trace ∧
    (routeQuestion ⟨100, true⟩ (fun _ _ => "") "ok" (.ok []) (.ok []) true).merged = [] ∧
    ∃ ans, (routeQuestion ⟨100, true⟩ (fun _ _ => "") "ok" (.ok []) (.ok []) true).result
      = .ok ans :=
  both_empty_direct_to_synthesized ⟨100, true⟩ (fun _ _ => "") "ok" rfl rfl

/-- C8: For every single-backend dispatch (FACTUAL or OPEN_ENDED), the merge
step is the identity: the MergedContext equals that backend's result list
unchanged, in its original order. -/
theorem single_dispatch_merge_identity (cfg : Config)
    (synthText : String → List RetrievalResult → String) (q : String)
    (rs : List RetrievalResult) (fo so : BackendOutcome) (synthOk : Bool)
    (hg : cfg.graphEnabled = true) :
    (classify q = .ok .OPEN_ENDED →
      (routeQuestion cfg synthText q fo (.ok rs) synthOk).merged = mergeSingle rs ∧
      mergeSingle rs = rs) ∧
    (classify q = .ok .FACTUAL →
      (routeQuestion cfg synthText q (.ok rs) so synthOk).merged = mergeSingle rs ∧
      mergeSingle rs = rs) := by
  constructor
  · intro hc
    refine ⟨routeQuestion_merged cfg synthText q .OPEN_ENDED fo (.ok rs) synthOk rs hc ?_,
      rfl⟩
    simp [dispatch, queriesFact, queriesSem, hg, singleDispatch, mergeSingle]
  · intro hc
    refine ⟨routeQuestion_merged cfg synthText q .FACTUAL (.ok rs) so synthOk rs hc ?_,
      rfl⟩
    simp [dispatch, queriesFact, queriesSem, hg, singleDispatch, mergeSingle]

/-- Witness for C8: the spec's end-to-end scenario — "tell me about your
company" (OPEN_ENDED) with three scored snippets from the Semantic Retriever
passes through the merge unchanged. -/
theorem single_dispatch_merge_identity_witness :
    (routeQuestion ⟨100, true⟩ (fun _ _ => "") "tell me about your company" .timeout
        (.ok [⟨1, "aaa", 9/10⟩, ⟨2, "bbb", 8/10⟩, ⟨3, "ccc", 7/10⟩]) true).merged =
      mergeSingle [⟨1, "aaa", 9/10⟩, ⟨2, "bbb", 8/10⟩, ⟨3, "ccc", 7/10⟩] ∧
    mergeSingle [⟨1, "aaa", 9/10⟩, ⟨2, "bbb", 8/10⟩, ⟨3, "ccc", 7/10⟩] =
      [⟨1, "aaa", 9/10⟩, ⟨2, "bbb", 8/10⟩, ⟨3, "ccc", 7/10⟩] :=
  (single_dispatch_merge_identity ⟨100, true⟩ (fun _ _ => "")
    "tell me about your company" [⟨1, "aaa", 9/10⟩, ⟨2, "bbb", 8/10⟩, ⟨3, "ccc", 7/10⟩]
    .timeout .timeout true rfl).1 rfl

/-- C9: With the Fact Retriever disabled, every Question regardless of its
Classification is routed to the Semantic Retriever only; the Fact Retriever
is never queried (the run does not depend on the Fact backend's outcome). -/
theorem graph_disabled_semantic_only (cfg : Config)
    (synthText : String → List RetrievalResult → String) (q : String)
    (c : Classification) (fo fo' so : BackendOutcome) (synthOk : Bool)
    (hg : cfg.graphEnabled = false) (hc : classify q = .ok c) :
    (routeQuestion cfg synthText q fo so synthOk).queriedFact = false ∧
    (routeQuestion cfg synthText q fo so synthOk).queriedSem = true ∧
    routeQuestion cfg synthText q fo so synthOk =
      routeQuestion cfg synthText q fo' so synthOk := by
  obtain ⟨hf, hs⟩ := routeQuestion_queried cfg synthText q c fo so synthOk hc
  refine ⟨?_, ?_, ?_⟩
  · rw [hf]
    cases c <;> simp [queriesFact, hg]
  · rw [hs]
    cases c <;> simp [queriesSem, hg]
  · simp only [routeQuestion, hc]
    cases c <;> simp [dispatch, queriesFact, queriesSem, hg]

/-- Witness for C9: a FACTUAL question with the graph disabled ignores the
Fact backend entirely. -/
theorem graph_disabled_semantic_only_witness :
    (routeQuestion ⟨100, false⟩ (fun _ _ => "") "what is X" .unavailable
      (.ok [⟨1, "aaa", 9/10⟩]) true).queriedFact = false ∧
    (routeQuestion ⟨100, false⟩ (fun _ _ => "") "what is X" .unavailable
      (.ok [⟨1, "aaa", 9/10⟩]) true).queriedSem = true ∧
    routeQuestion ⟨100, false⟩ (fun _ _ => "") "what is X" .unavailable
      (.ok [⟨1, "aaa", 9/10⟩]) true =
    routeQuestion ⟨100, false⟩ (fun _ _ => "") "what is X" (.ok [⟨7, "zzz", 1/2⟩])
      (.ok [⟨1, "aaa", 9/10⟩]) true :=
  graph_disabled_semantic_only ⟨100, false⟩ (fun _ _ => "") "what is X" .FACTUAL
    .unavailable (.ok [⟨7, "zzz", 1/2⟩]) (.ok [⟨1, "aaa", 9/10⟩]) true rfl rfl

/-- C6: In a dual dispatch where exactly one backend returns zero results,
times out, or errors while the other succeeds, the router does not fail: the
MergedContext is built solely from the surviving backend's results, the
failed backend's contribution being treated as zero results. -/
theorem surviving_backend_builds_context (cfg : Config)
    (synthText : String → List RetrievalResult → String) (q : String)
    (a b : List RetrievalResult) (fo so : BackendOutcome)
    (hg : cfg.graphEnabled = true) (hc : classify q = .ok .UNCERTAIN) :
    ((fo = .timeout ∨ fo = .unavailable ∨ fo = .ok []) →
      (routeQuestion cfg synthText q fo (.ok b) true).merged =
        mergeDual cfg.budget [] b ∧
      (∀ x ∈ (routeQuestion cfg synthText q fo (.ok b) true).merged, x ∈ b) ∧
      ∃ ans, (routeQuestion cfg synthText q fo (.ok b) true).result = .ok ans) ∧
    ((so = .timeout ∨ so = .unavailable ∨ so = .ok []) →
      (routeQuestion cfg synthText q (.ok a) so true).merged =
        mergeDual cfg.budget a [] ∧
      (∀ x ∈ (routeQuestion cfg synthText q (.ok a) so true).merged, x ∈ a) ∧
      ∃ ans, (routeQuestion cfg synthText q (.ok a) so true).result = .ok ans) := by
  constructor
  · intro hfo
    have hd : dispatch cfg.budget cfg.graphEnabled .UNCERTAIN fo (.ok b) =
        .ok (mergeDual cfg.budget [] b) := by
      rcases hfo with rfl | rfl | rfl <;>
        simp [dispatch, queriesFact, queriesSem, hg, dualDispatch]
    refine ⟨routeQuestion_merged cfg synthText q .UNCERTAIN fo (.ok b) true _ hc hd,
      ?_, ?_⟩
    · intro x hx
      rw [routeQuestion_merged cfg synthText q .UNCERTAIN fo (.ok b) true _ hc hd] at hx
      have hmem := mergeDual_subset cfg.budget [] b x hx
      simpa using hmem
    · exact ⟨_, routeQuestion_result_ok cfg synthText q .UNCERTAIN fo (.ok b) _ hc hd⟩
  · intro hso
    have hd : dispatch cfg.budget cfg.graphEnabled .UNCERTAIN (.ok a) so =
        .ok (mergeDual cfg.budget a []) := by
      rcases hso with rfl | rfl | rfl <;>
        simp [dispatch, queriesFact, queriesSem, hg, dualDispatch]
    refine ⟨routeQuestion_merged cfg synthText q .UNCERTAIN (.ok a) so true _ hc hd,
      ?_, ?_⟩
    · intro x hx
      rw [routeQuestion_merged cfg synthText q .UNCERTAIN (.ok a) so true _ hc hd] at hx
      have hmem := mergeDual_subset cfg.budget a [] x hx
      simpa using hmem
    · exact ⟨_, routeQuestion_result_ok cfg synthText q .UNCERTAIN (.ok a) so _ hc hd⟩

/-- Witness for C6: Fact backend times out while the Semantic backend
succeeds, and Semantic backend errors while the Fact backend succeeds. -/
theorem surviving_backend_builds_context_witness :
    ((BackendOutcome.timeout = .timeout ∨ BackendOutcome.timeout = .unavailable ∨
        BackendOutcome.timeout = .ok []) →
      (routeQuestion ⟨100, true⟩ (fun _ _ => "") "ok" .timeout
          (.ok [⟨2, "bb", 1⟩]) true).merged = mergeDual 100 [] [⟨2, "bb", 1⟩] ∧
      (∀ x ∈ (routeQuestion ⟨100, true⟩ (fun _ _ => "") "ok" .timeout
          (.ok [⟨2, "bb", 1⟩]) true).merged, x ∈ [⟨2, "bb", 1⟩]) ∧
      ∃ ans, (routeQuestion ⟨100, true⟩ (fun _ _ => "") "ok" .timeout
          (.ok [⟨2, "bb", 1⟩]) true).result = .ok ans) ∧
    ((BackendOutcome.unavailable = .timeout ∨ BackendOutcome.unavailable = .unavailable ∨
        BackendOutcome.unavailable = .ok []) →
      (routeQuestion ⟨100, true⟩ (fun _ _ => "") "ok" (.ok [⟨1, "aa", 2⟩])
          .unavailable true).merged = mergeDual 100 [⟨1, "aa", 2⟩] [] ∧
      (∀ x ∈ (routeQuestion ⟨100, true⟩ (fun _ _ => "") "ok" (.ok [⟨1, "aa", 2⟩])
          .unavailable true).merged, x ∈ [⟨1, "aa", 2⟩]) ∧
      ∃ ans, (routeQuestion ⟨100, true⟩ (fun _ _ => "") "ok" (.ok [⟨1, "aa", 2⟩])
          .unavailable true).result = .ok ans) :=
  surviving_backend_builds_context ⟨100, true⟩ (fun _ _ => "") "ok"
    [⟨1, "aa", 2⟩] [⟨2, "bb", 1⟩] .timeout .unavailable rfl rfl

/-- C7: When both backends of a dual dispatch fail, the router terminates in
ERRORED with BackendTimeout or BackendUnavailable and never returns an
Answer. -/
theorem both_backends_fail_errored (cfg : Config)
    (synthText : String → List RetrievalResult → String) (q : String)
    (fo so : BackendOutcome) (synthOk : Bool)
    (hg : cfg.graphEnabled = true) (hc : classify q = .ok .UNCERTAIN)
    (hf : fo = .timeout ∨ fo = .unavailable)
    (hs : so = .timeout ∨ so = .unavailable) :
    (routeQuestion cfg synthText q fo so synthOk).trace =
      [.RECEIVED, .CLASSIFIED, .DISPATCHED, .ERRORED] ∧
    ((routeQuestion cfg synthText q fo so synthOk).result = .error .BackendTimeout ∨
     (routeQuestion cfg synthText q fo so synthOk).result = .error .BackendUnavailable) ∧
    ∀ ans : Answer, (routeQuestion cfg synthText q fo so synthOk).result ≠ .ok ans := by
  have hd : ∃ e, (e = RouterError.BackendTimeout ∨ e = RouterError.BackendUnavailable) ∧
      dispatch cfg.budget cfg.graphEnabled .UNCERTAIN fo so = .error e := by
    rcases hf with rfl | rfl <;> rcases hs with rfl | rfl
    · exact ⟨.BackendTimeout, Or.inl rfl,
        by simp [dispatch, queriesFact, queriesSem, hg, dualDispatch]⟩
    · exact ⟨.BackendUnavailable, Or.inr rfl,
        by simp [dispatch, queriesFact, queriesSem, hg, dualDispatch]⟩
    · exact ⟨.BackendUnavailable, Or.inr rfl,
        by simp [dispatch, queriesFact, queriesSem, hg, dualDispatch]⟩
    · exact ⟨.BackendUnavailable, Or.inr rfl,
        by simp [dispatch, queriesFact, queriesSem, hg, dualDispatch]⟩
  obtain ⟨e, he, hde⟩ := hd
  obtain ⟨hres, htr⟩ :=
    routeQuestion_result_err cfg synthText q .UNCERTAIN fo so synthOk e hc hde
  refine ⟨htr, ?_, ?_⟩
  · rcases he with rfl | rfl
    · exact Or.inl hres
    · exact Or.inr hres
  · intro ans hcon
    rw [hres] at hcon
    exact Except.noConfusion hcon

/-- Witness for C7: both backends time out. -/
theorem both_backends_fail_errored_witness :
    (routeQuestion ⟨100, true⟩ (fun _ _ => "") "ok" .timeout .timeout true).trace =
      [.RECEIVED, .CLASSIFIED, .DISPATCHED, .ERRORED] ∧
    ((routeQuestion ⟨100, true⟩ (fun _ _ => "") "ok" .timeout .timeout true).result =
        .error .BackendTimeout ∨
     (routeQuestion ⟨100, true⟩ (fun _ _ => "") "ok" .timeout .timeout true).result =
        .error .BackendUnavailable) ∧
    ∀ ans : Answer,
      (routeQuestion ⟨100, true⟩ (fun _ _ => "") "ok" .timeout .timeout true).result ≠
        .ok ans :=
  both_backends_fail_errored ⟨100, true⟩ (fun _ _ => "") "ok" .timeout .timeout true
    rfl rfl (Or.inl rfl) (Or.inl rfl)

/-- C2: For an UNCERTAIN dual dispatch whose two result sets share no
source_id, the MergedContext is the union of both, ordered by descending
relevance_score with ties broken by source_id, its total size within the
budget, lowest-score entries dropped first, and equal to the whole union
whenever the union fits the budget. -/
theorem dual_merge_disjoint_union (cfg : Config)
    (synthText : String → List RetrievalResult → String) (q : String)
    (a b : List RetrievalResult)
    (hg : cfg.graphEnabled = true) (hc : classify q = .ok .UNCERTAIN)
    (hab : ((a ++ b).map (fun r => r.source_id)).Nodup) :
    (routeQuestion cfg synthText q (.ok a) (.ok b) true).merged.Sorted resultOrder ∧
    contextSize (routeQuestion cfg synthText q (.ok a) (.ok b) true).merged ≤
      cfg.budget ∧
    (∀ x ∈ (routeQuestion cfg synthText q (.ok a) (.ok b) true).merged, x ∈ a ++ b) ∧
    (∃ dropped, sortResults (a ++ b) =
      (routeQuestion cfg synthText q (.ok a) (.ok b) true).merged ++ dropped) ∧
    (contextSize (a ++ b) ≤ cfg.budget →
      List.Perm (routeQuestion cfg synthText q (.ok a) (.ok b) true).merged (a ++ b)) := by
  have hd : dispatch cfg.budget cfg.graphEnabled .UNCERTAIN (.ok a) (.ok b) =
      .ok (mergeDual cfg.budget a b) := by
    simp [dispatch, queriesFact, queriesSem, hg, dualDispatch]
  have hm : (routeQuestion cfg synthText q (.ok a) (.ok b) true).merged =
      mergeDual cfg.budget a b :=
    routeQuestion_merged cfg synthText q .UNCERTAIN (.ok a) (.ok b) true _ hc hd
  have hperm : List.Perm (sortResults (a ++ b)) (a ++ b) := sortResults_perm (a ++ b)
  have hnodupS : ((sortResults (a ++ b)).map (fun r => r.source_id)).Nodup :=
    (hperm.map (fun r => r.source_id)).nodup_iff.mpr hab
  have hded : dedupeBySource (sortResults (a ++ b)) = sortResults (a ++ b) :=
    dedupeBySource_eq_self _ hnodupS
  have hmm : mergeDual cfg.budget a b =
      takeWithinBudget cfg.budget (sortResults (a ++ b)) := by
    rw [mergeDual, hded]
  obtain ⟨dropped, hdrop⟩ := takeWithinBudget_append cfg.budget (sortResults (a ++ b))
  have hsub : List.Sublist (takeWithinBudget cfg.budget (sortResults (a ++ b)))
      (sortResults (a ++ b)) := takeWithinBudget_sublist cfg.budget _
  refine ⟨?_, ?_, ?_, ?_, ?_⟩
  · rw [hm, hmm]
    exact List.Pairwise.sublist hsub (sortResults_sorted (a ++ b))
  · rw [hm, hmm]
    exact contextSize_takeWithinBudget cfg.budget _
  · intro x hx
    rw [hm] at hx
    exact mergeDual_subset cfg.budget a b x hx
  · exact ⟨dropped, by rw [hm, hmm]; exact hdrop⟩
  · intro hbud
    have hsum : contextSize (sortResults (a ++ b)) = contextSize (a ++ b) := by
      unfold contextSize
      exact (hperm.map (fun r => r.text_snippet.length)).sum_eq
    rw [hm, hmm, takeWithinBudget_all cfg.budget _ (by rw [hsum]; exact hbud)]
    exact hperm

/-- Witness for C2 with two disjoint singleton result sets that fit the
budget. -/
theorem dual_merge_disjoint_union_witness :
    (routeQuestion ⟨100, true⟩ (fun _ _ => "") "ok" (.ok [⟨1, "aa", 3⟩])
        (.ok [⟨2, "bb", 2⟩]) true).merged.Sorted resultOrder ∧
    contextSize (routeQuestion ⟨100, true⟩ (fun _ _ => "") "ok" (.ok [⟨1, "aa", 3⟩])
        (.ok [⟨2, "bb", 2⟩]) true).merged ≤ 100 ∧
    (∀ x ∈ (routeQuestion ⟨100, true⟩ (fun _ _ => "") "ok" (.ok [⟨1, "aa", 3⟩])
        (.ok [⟨2, "bb", 2⟩]) true).merged, x ∈ [⟨1, "aa", 3⟩] ++ [⟨2, "bb", 2⟩]) ∧
    (∃ dropped, sortResults ([⟨1, "aa", 3⟩] ++ [⟨2, "bb", 2⟩]) =
      (routeQuestion ⟨100, true⟩ (fun _ _ => "") "ok" (.ok [⟨1, "aa", 3⟩])
        (.ok [⟨2, "bb", 2⟩]) true).merged ++ dropped) ∧
    (contextSize ([⟨1, "aa", 3⟩] ++ [⟨2, "bb", 2⟩]) ≤ 100 →
      List.Perm (routeQuestion ⟨100, true⟩ (fun _ _ => "") "ok" (.ok [⟨1, "aa", 3⟩])
        (.ok [⟨2, "bb", 2⟩]) true).merged ([⟨1, "aa", 3⟩] ++ [⟨2, "bb", 2⟩])) :=
  dual_merge_disjoint_union ⟨100, true⟩ (fun _ _ => "") "ok"
    [⟨1, "aa", 3⟩] [⟨2, "bb", 2⟩] rfl rfl (by decide)

/-- C3: For an UNCERTAIN dual dispatch whose result sets share a source_id,
the merge deduplicates: the shared source_id appears exactly once in the
MergedContext, carried by one of the two entries with the higher of the two
relevance_scores. -/
theorem dual_merge_dedupes_shared (cfg : Config)
    (synthText : String → List RetrievalResult → String) (q : String)
    (a b : List RetrievalResult) (x y : RetrievalResult)
    (hg : cfg.graphEnabled = true) (hc : classify q = .ok .UNCERTAIN)
    (hna : (a.map (fun r => r.source_id)).Nodup)
    (hnb : (b.map (fun r => r.source_id)).Nodup)
    (hx : x ∈ a) (hy : y ∈ b) (hxy : x.source_id = y.source_id)
    (hbud : contextSize (dedupeBySource (sortResults (a ++ b))) ≤ cfg.budget) :
    (((routeQuestion cfg synthText q (.ok a) (.ok b) true).merged.map
        (fun r => r.source_id)).count x.source_id = 1) ∧
    ∃ e ∈ (routeQuestion cfg synthText q (.ok a) (.ok b) true).merged,
      e.source_id = x.source_id ∧
      e.relevance_score = max x.relevance_score y.relevance_score ∧
      (e = x ∨ e = y) := by
  have hd : dispatch cfg.budget cfg.graphEnabled .UNCERTAIN (.ok a) (.ok b) =
      .ok (mergeDual cfg.budget a b) := by
    simp [dispatch, queriesFact, queriesSem, hg, dualDispatch]
  have hm : (routeQuestion cfg synthText q (.ok a) (.ok b) true).merged =
      dedupeBySource (sortResults (a ++ b)) := by
    rw [routeQuestion_merged cfg synthText q .UNCERTAIN (.ok a) (.ok b) true _ hc hd,
      mergeDual, takeWithinBudget_all cfg.budget _ hbud]
  have hperm : List.Perm (sortResults (a ++ b)) (a ++ b) := sortResults_perm (a ++ b)
  have hxS : x ∈ sortResults (a ++ b) :=
    hperm.mem_iff.mpr (List.mem_append_left _ hx)
  have hyS : y ∈ sortResults (a ++ b) :=
    hperm.mem_iff.mpr (List.mem_append_right _ hy)
  obtain ⟨e, heD, heid⟩ := dedupeBySource_exists (sortResults (a ++ b)) x hxS
  have hnd := dedupeBySource_nodup (sortResults (a ++ b))
  have hcount : ((dedupeBySource (sortResults (a ++ b))).map
      (fun r => r.source_id)).count x.source_id = 1 :=
    List.count_eq_one_of_mem hnd (List.mem_map.mpr ⟨e, heD, heid⟩)
  have heAB : e ∈ a ++ b :=
    hperm.subset ((dedupeBySource_sublist (sortResults (a ++ b))).subset heD)
  have hxy_e : e = x ∨ e = y := by
    rcases List.mem_append.mp heAB with hea | heb
    · exact Or.inl (List.inj_on_of_nodup_map hna hea hx heid)
    · exact Or.inr (List.inj_on_of_nodup_map hnb heb hy (heid.trans hxy))
  have hmax := dedupeBySource_max (sortResults (a ++ b))
    (sortResults_sorted (a ++ b)) e heD
  have hxle : x.relevance_score ≤ e.relevance_score := hmax x hxS heid.symm
  have hyle : y.relevance_score ≤ e.relevance_score :=
    hmax y hyS ((heid.trans hxy).symm)
  have hescore : e.relevance_score = max x.relevance_score y.relevance_score := by
    rcases hxy_e with rfl | rfl
    · exact (max_eq_left hyle).symm
    · exact (max_eq_right hxle).symm
  exact ⟨by rw [hm]; exact hcount, ⟨e, by rw [hm]; exact heD, heid, hescore, hxy_e⟩⟩

/-- Witness for C3: both backends return the same source_id 1 with different
scores; the merged context keeps it once with the higher score. -/
theorem dual_merge_dedupes_shared_witness :
    (((routeQuestion ⟨100, true⟩ (fun _ _ => "") "ok" (.ok [⟨1, "aa", 3⟩])
        (.ok [⟨1, "bb", 5⟩]) true).merged.map
        (fun r => r.source_id)).count (RetrievalResult.mk 1 "aa" 3).source_id = 1) ∧
    ∃ e ∈ (routeQuestion ⟨100, true⟩ (fun _ _ => "") "ok" (.ok [⟨1, "aa", 3⟩])
        (.ok [⟨1, "bb", 5⟩]) true).merged,
      e.source_id = (RetrievalResult.mk 1 "aa" 3).source_id ∧
      e.relevance_score = max (RetrievalResult.mk 1 "aa" 3).relevance_score
        (RetrievalResult.mk 1 "bb" 5).relevance_score ∧
      (e = ⟨1, "aa", 3⟩ ∨ e = ⟨1, "bb", 5⟩) :=
  dual_merge_dedupes_shared ⟨100, true⟩ (fun _ _ => "") "ok"
    [⟨1, "aa", 3⟩] [⟨1, "bb", 5⟩] ⟨1, "aa", 3⟩ ⟨1, "bb", 5⟩ rfl rfl
    (by decide) (by decide) (by decide) (by decide) rfl (by decide)

/-- C10: Every run of the startup script that reaches the interface-launch
menu has completed the dependency check, the .env existence check, the
semantic index build and the knowledge graph build, in that order; if pip is
unavailable or .env is absent the script exits with status 1 before either
build runs, creating .env from example.env when the .env check is reached
and the file is absent. -/
theorem startup_script_order (env : ScriptEnv) :
    (ScriptEvent.showMenu ∈ runScript env →
      ∃ pre post, runScript env = pre ++ ScriptEvent.showMenu :: post ∧
        List.Sublist [ScriptEvent.depCheck, ScriptEvent.envCheck,
          ScriptEvent.buildIndex, ScriptEvent.buildGraph] pre) ∧
    ((env.pipAvailable = false ∨ env.envFileExists = false) →
      ScriptEvent.exitWith 1 ∈ runScript env ∧
      ScriptEvent.buildIndex ∉ runScript env ∧
      ScriptEvent.buildGraph ∉ runScript env ∧
      (env.pipAvailable = true → env.envFileExists = false →
        ScriptEvent.createEnv ∈ runScript env)) := by
  cases hp : env.pipAvailable with
  | false =>
      constructor
      · intro hmenu
        simp [runScript, hp] at hmenu
      · intro _
        refine ⟨by simp [runScript, hp], by simp [runScript, hp],
          by simp [runScript, hp], ?_⟩
        intro hpt
        exact absurd hpt (by simp)
  | true =>
      cases he : env.envFileExists with
      | false =>
          constructor
          · intro hmenu
            simp [runScript, hp, he] at hmenu
          · intro _
            exact ⟨by simp [runScript, hp, he], by simp [runScript, hp, he],
              by simp [runScript, hp, he], fun _ _ => by simp [runScript, hp, he]⟩
      | true =>
          constructor
          · intro _
            refine ⟨[.depCheck, .pipInstall, .envCheck, .spacyDownload, .dataCheck,
              .buildIndex, .buildGraph], launchTail env.choice, ?_, by decide⟩
            simp [runScript, hp, he]
          · intro hflags
            rcases hflags with h | h <;> exact absurd h (by simp)

/-- Witness for C10: a run reaching the menu (choice 2) and a run with .env
absent. -/
theorem startup_script_order_witness :
    (∃ pre post, runScript ⟨true, true, true, 2⟩ =
        pre ++ ScriptEvent.showMenu :: post ∧
      List.Sublist [ScriptEvent.depCheck, ScriptEvent.envCheck,
        ScriptEvent.buildIndex, ScriptEvent.buildGraph] pre) ∧
    (ScriptEvent.exitWith 1 ∈ runScript ⟨true, false, true, 2⟩ ∧
     ScriptEvent.buildIndex ∉ runScript ⟨true, false, true, 2⟩ ∧
     ScriptEvent.buildGraph ∉ runScript ⟨true, false, true, 2⟩ ∧
     ScriptEvent.createEnv ∈ runScript ⟨true, false, true, 2⟩) := by
  constructor
  · exact (startup_script_order ⟨true, true, true, 2⟩).1 (by decide)
  · have h := (startup_script_order ⟨true, false, true, 2⟩).2 (Or.inr rfl)
    exact ⟨h.1, h.2.1, h.2.2.1, h.2.2.2 rfl rfl⟩

end Chatbot
